import Mathlib

/-!
Verification development for the Animator-vs-Animation-IRL stickman engine.

The Python code (src/stickman.py, src/screen_read.py) is shallowly embedded:
positions, velocities and time steps (Python floats) become rationals,
pixel-grid indices become naturals, screen offsets become integers, the
boolean collision map becomes a structure carrying its dimensions and a cell
function, and fallible calls (screen capture) return Except values.
-/

/-- A collision map: boolean grid of shape (H, W) (True = solid), as produced
by screen_read.get_collision_map.  `cell i j` is the entry at row i, col j. -/
structure CollisionMap where
  H : Nat
  W : Nat
  cell : Nat → Nat → Bool

/-- The region.any() test over the sub-grid rows [top, bot) and cols
[left, right) of the map (numpy slicing: an empty slice yields False). -/
def regionAny (cm : CollisionMap) (top bot left right : Nat) : Bool :=
  (List.range (bot - top)).any fun i =>
    (List.range (right - left)).any fun j => cm.cell (top + i) (left + j)

/-- Stickman._aabb_collides: whether the AABB at (x, y, w, h) overlaps any
True cell, after translating screen coordinates by the map offset
(cmx, cmy) and clamping to the map bounds.  A None map never collides. -/
def aabb_collides (cmO : Option CollisionMap) (cmx cmy : Int) (w h : Nat)
    (x y : ℚ) : Bool :=
  match cmO with
  | none => false
  | some cm =>
    let left : Int := ⌊x⌋ - cmx
    let top : Int := ⌊y⌋ - cmy
    let right : Int := ⌈x + (w : ℚ)⌉ - cmx
    let bottom : Int := ⌈y + (h : ℚ)⌉ - cmy
    if right ≤ 0 ∨ bottom ≤ 0 ∨ (cm.W : Int) ≤ left ∨ (cm.H : Int) ≤ top then
      false
    else
      let leftC := (max 0 left).toNat
      let topC := (max 0 top).toNat
      let rightC := min cm.W right.toNat
      let bottomC := min cm.H bottom.toNat
      if rightC ≤ leftC ∨ bottomC ≤ topC then false
      else regionAny cm topC bottomC leftC rightC

/-- Stickman._aabb_collides_ignore_bottom: like aabb_collides but the bottom
`ignoreRows` rows of the AABB are excluded (the source subtracts ignore_rows
from the bottom bound, and its final guard checks only the row interval). -/
def aabb_collides_ignore_bottom (cmO : Option CollisionMap) (cmx cmy : Int)
    (w h : Nat) (x y : ℚ) (ignoreRows : Nat) : Bool :=
  match cmO with
  | none => false
  | some cm =>
    let left : Int := ⌊x⌋ - cmx
    let top : Int := ⌊y⌋ - cmy
    let right : Int := ⌈x + (w : ℚ)⌉ - cmx
    let bottom : Int := ⌈y + (h : ℚ)⌉ - cmy - ignoreRows
    if right ≤ 0 ∨ bottom ≤ 0 ∨ (cm.W : Int) ≤ left ∨ (cm.H : Int) ≤ top then
      false
    else
      let leftC := (max 0 left).toNat
      let topC := (max 0 top).toNat
      let rightC := min cm.W right.toNat
      let bottomC := min cm.H bottom.toNat
      if bottomC ≤ topC then false
      else regionAny cm topC bottomC leftC rightC

/-- The step direction of _resolve_horizontal / _resolve_vertical:
`1 if d > 0 else -1`. -/
def dirStep (d : ℚ) : ℚ := if 0 < d then 1 else -1

/-- The 1-px stepping loop shared by _resolve_horizontal and
_resolve_vertical: while the guard (`cur < target` when stepping up,
`cur > target` when stepping down) holds, probe one step ahead; stop on the
position just before the first colliding step, else advance.  The loop
advances exactly one unit per iteration toward `target`, so it performs at
most ⌈|target - start|⌉ iterations before the guard fails; callers pass that
many as `fuel`, hence the fuel never cuts the loop short. -/
def resolveLoop (probe : ℚ → Bool) (step target : ℚ) : ℚ → Nat → ℚ
  | cur, 0 => cur
  | cur, fuel + 1 =>
    if (if 0 < step then cur < target else target < cur) then
      (if probe (cur + step) then cur
       else resolveLoop probe step target (cur + step) fuel)
    else cur

/-- Punch direction: "horizontal", "up" or "down". -/
inductive PunchDir
  | horizontal
  | up
  | down
deriving DecidableEq

/-- The Stickman state relevant to physics, collision and input handling
(src/stickman.py dataclass fields; sound channels, sprite bookkeeping and
listener threads are external and modelled separately where a claim needs
them). -/
structure Stickman where
  x : ℚ
  y : ℚ
  vx : ℚ
  vy : ℚ
  width : Nat
  height : Nat
  collisionMap : Option CollisionMap
  collisionMapX : Int
  collisionMapY : Int
  isMovingLeft : Bool
  isMovingRight : Bool
  wantsJump : Bool
  isFlying : Bool
  facingRight : Bool
  punchDirection : PunchDir
  speed : ℚ
  jumpVelocity : ℚ
  gravity : ℚ
  maxFallSpeed : ℚ

/-- Stickman.can_move_horizontal: True if the AABB can move by dx without
colliding (None map: always True); probes with the strict variant. -/
def Stickman.can_move_horizontal (s : Stickman) (dx : ℚ) : Bool :=
  if s.collisionMap.isNone then true
  else !aabb_collides s.collisionMap s.collisionMapX s.collisionMapY
        s.width s.height (s.x + dx) s.y

/-- Stickman.can_move_vertical: True if the AABB can move by dy without
colliding (None map: always True); probes with the strict variant. -/
def Stickman.can_move_vertical (s : Stickman) (dy : ℚ) : Bool :=
  if s.collisionMap.isNone then true
  else !aabb_collides s.collisionMap s.collisionMapX s.collisionMapY
        s.width s.height s.x (s.y + dy)

/-- Stickman.is_on_ground: solid 1px below the AABB (None map: False). -/
def Stickman.is_on_ground (s : Stickman) : Bool :=
  if s.collisionMap.isNone then false
  else aabb_collides s.collisionMap s.collisionMapX s.collisionMapY
        s.width s.height s.x (s.y + 1)

/-- Stickman._resolve_horizontal: walk from x toward x + dx in 1px steps,
stopping just before a step whose probe (the bottom-5-rows-tolerant variant)
collides. -/
def Stickman.resolve_horizontal (s : Stickman) (x y dx : ℚ) : ℚ :=
  resolveLoop
    (fun nx => aabb_collides_ignore_bottom s.collisionMap s.collisionMapX
      s.collisionMapY s.width s.height nx y 5)
    (dirStep dx) (x + dx) x (⌈|dx|⌉.toNat)

/-- Stickman._resolve_vertical: walk from y toward y + dy in 1px steps,
stopping just before a step whose probe (the strict variant) collides. -/
def Stickman.resolve_vertical (s : Stickman) (x y dy : ℚ) : ℚ :=
  resolveLoop
    (fun ny => aabb_collides s.collisionMap s.collisionMapX
      s.collisionMapY s.width s.height x ny)
    (dirStep dy) (y + dy) y (⌈|dy|⌉.toNat)

/-- The horizontal block of Stickman._move_and_collide: returns the new x
and vx.  Full-step first (strict probe via can_move_horizontal); on
collision, fall back to 1px stepping and zero vx. -/
def Stickman.horizontal_phase (s : Stickman) (dt : ℚ) : ℚ × ℚ :=
  let dx := s.vx * dt
  if dx ≠ 0 then
    if s.can_move_horizontal dx then (s.x + dx, s.vx)
    else (s.resolve_horizontal s.x s.y dx, 0)
  else (s.x, s.vx)

/-- The vertical block of Stickman._move_and_collide: returns the new y and
vy.  The full-step probe (can_move_vertical) reads the stickman's stored
position, while the stepping fallback starts from the x already updated by
the horizontal block (`x1`), exactly as in the source. -/
def Stickman.vertical_phase (s : Stickman) (x1 : ℚ) (dt : ℚ) : ℚ × ℚ :=
  let dy := s.vy * dt
  if dy ≠ 0 then
    if s.can_move_vertical dy then (s.y + dy, s.vy)
    else (s.resolve_vertical x1 s.y dy, 0)
  else (s.y, s.vy)

/-- Stickman._move_and_collide: horizontal block, then vertical block, then
clamp to the 1920 x 1200 screen and zero a velocity component whose
position sits on a screen edge. -/
def Stickman.move_and_collide (s : Stickman) (dt : ℚ) : Stickman :=
  let hp := s.horizontal_phase dt
  let vp := s.vertical_phase hp.1 dt
  let x2 := max 0 (min (1920 - (s.width : ℚ)) hp.1)
  let y2 := max 0 (min (1200 - (s.height : ℚ)) vp.1)
  let vx2 := if x2 = 0 ∨ x2 = 1920 - (s.width : ℚ) then 0 else hp.2
  let vy2 := if y2 = 0 ∨ y2 = 1200 - (s.height : ℚ) then 0 else vp.2
  { s with x := x2, y := y2, vx := vx2, vy := vy2 }

/-- Stickman.apply_gravity: no-op while flying; otherwise add gravity * dt
to vy and clamp at max_fall_speed. -/
def Stickman.apply_gravity (s : Stickman) (dt : ℚ) : Stickman :=
  if s.isFlying then s
  else
    let vy := s.vy + s.gravity * dt
    { s with vy := if vy > s.maxFallSpeed then s.maxFallSpeed else vy }

/-- Stickman.try_jump: flying drives vy = -speed directly; otherwise an
upward impulse only if standing on solid ground. -/
def Stickman.try_jump (s : Stickman) : Stickman :=
  if s.isFlying then { s with vy := -s.speed }
  else if s.is_on_ground then { s with vy := -s.jumpVelocity }
  else s

/-- The physics chain of Stickman.update for one tick: gravity, jump-request
consumption, left/right intent to horizontal velocity (with facing update),
the flying vertical-velocity override, then _move_and_collide.  The
collision-map refresh, sound playback, blast timers (modelled by blastTick)
and animation of the source update are orthogonal to this chain. -/
def Stickman.update (s : Stickman) (dt : ℚ) : Stickman :=
  let s1 := s.apply_gravity dt
  let s2 := if s1.wantsJump then { s1.try_jump with wantsJump := false } else s1
  let dvx : ℚ :=
    if s2.isMovingLeft ∧ ¬s2.isMovingRight then -s2.speed
    else if s2.isMovingRight ∧ ¬s2.isMovingLeft then s2.speed
    else 0
  let fr : Bool :=
    if s2.isMovingLeft ∧ ¬s2.isMovingRight then false
    else if s2.isMovingRight ∧ ¬s2.isMovingLeft then true
    else s2.facingRight
  let dvy : ℚ :=
    if s2.isFlying then
      (if s2.punchDirection = PunchDir.down then s2.speed
       else if s2.punchDirection = PunchDir.up then -s2.speed
       else 0)
    else s2.vy
  Stickman.move_and_collide { s2 with vx := dvx, vy := dvy, facingRight := fr } dt

/-- An all-false (obstacle-free) 40 x 40 collision map. -/
def cmEmpty : CollisionMap := ⟨40, 40, fun _ _ => false⟩

/-- A 40 x 40 collision map whose only solid cell is at row 27, col 5 -
inside the bottom 5 rows of a 21 x 30 AABB whose top-left is near (1, 0). -/
def cmLedge : CollisionMap := ⟨40, 40, fun i j => i == 27 && j == 5⟩

/-- The spec scenario stickman: at (1000, 200), at rest, default physics
constants, obstacle-free map, no input. -/
def stick0 : Stickman :=
  { x := 1000, y := 200, vx := 0, vy := 0, width := 21, height := 30
    collisionMap := some cmEmpty, collisionMapX := 0, collisionMapY := 0
    isMovingLeft := false, isMovingRight := false, wantsJump := false
    isFlying := false, facingRight := true, punchDirection := PunchDir.horizontal
    speed := 280, jumpVelocity := 500, gravity := 1800, maxFallSpeed := 500 }

/-- A stickman walking right at 60 px/s into cmLedge: the only obstacle sits
in the bottom 5 rows of the AABB one pixel ahead. -/
def stickLedge : Stickman :=
  { stick0 with x := 0, y := 0, vx := 60, vy := 0, collisionMap := some cmLedge }

/-- The blast / kamehameha bookkeeping of Stickman.update: the countdown
timer, whether a blast sound channel exists, the pending blast position,
the accumulated damage rectangles, and the channeling flag. -/
structure BlastState where
  kamehamehaTimer : ℚ
  blastChannel : Bool
  blastPos : Option (Int × Int)
  damageRects : List (Int × Int)
  isKamehameha : Bool
deriving DecidableEq

/-- Stickman.on_blast_end: append the blast position to damage_rects. -/
def on_blast_end (rects : List (Int × Int)) (blastPos : Int × Int) :
    List (Int × Int) :=
  rects ++ [blastPos]

/-- The kamehameha-timer block of Stickman.update for one tick.  `busy` is
what the blast sound channel's get_busy() reports this tick.  While the
timer is positive: decrement it; if a channel exists and is idle and a
blast position is pending, fire on_blast_end and clear both; then, if the
decremented timer has hit zero, end channeling and clear the blast
position.  A non-positive timer leaves the state untouched. -/
def blastTick (s : BlastState) (busy : Bool) (dt : ℚ) : BlastState :=
  if 0 < s.kamehamehaTimer then
    let t := s.kamehamehaTimer - dt
    let s1 :=
      if s.blastChannel = true ∧ busy = false then
        match s.blastPos with
        | some p =>
            { s with kamehamehaTimer := t,
                     damageRects := on_blast_end s.damageRects p,
                     blastPos := none, blastChannel := false }
        | none => { s with kamehamehaTimer := t }
      else { s with kamehamehaTimer := t }
    if t ≤ 0 then
      { s1 with isKamehameha := false, kamehamehaTimer := 0, blastPos := none }
    else s1
  else s

/-- Stickman.update_collision_map.  The provider (screen_read's
get_collision_map) captures the screen and can raise if the capture device
is unavailable; the source wraps neither the call nor the assignment in any
exception handler, so on Except.error the stored map is left as it was and
the exception escapes the refresh call (second component true). -/
def update_collision_map (current : Option CollisionMap)
    (providerResult : Option (Except Unit CollisionMap)) :
    Option CollisionMap × Bool :=
  match providerResult with
  | none => (current, false)
  | some (Except.error _) => (current, true)
  | some (Except.ok m) => (some m, false)

/-- The action states of the animation selector, named as in the spec
(Channeling = kamehameha). -/
inductive ActionState
  | Channeling
  | Flying
  | Punching
  | Jumping
  | Moving
  | Idle
deriving DecidableEq

/-- The branch order of Stickman.animate: is_kamehameha, elif is_flying,
elif is_punching, elif wants_jump, elif is_moving_left or is_moving_right,
else idle. -/
def select_action (kamehameha flying punching wantsJump movingLeft
    movingRight : Bool) : ActionState :=
  if kamehameha then ActionState.Channeling
  else if flying then ActionState.Flying
  else if punching then ActionState.Punching
  else if wantsJump then ActionState.Jumping
  else if movingLeft || movingRight then ActionState.Moving
  else ActionState.Idle

/-- The enter condition of each action state in terms of the per-tick
flags (Idle has none, so it always holds). -/
def actionCond (st : ActionState) (kamehameha flying punching wantsJump
    movingLeft movingRight : Bool) : Bool :=
  match st with
  | ActionState.Channeling => kamehameha
  | ActionState.Flying => flying
  | ActionState.Punching => punching
  | ActionState.Jumping => wantsJump
  | ActionState.Moving => movingLeft || movingRight
  | ActionState.Idle => true

/-- The spec's priority order: Channeling highest (1) down to Idle (6). -/
def actionPriority : ActionState → Nat
  | ActionState.Channeling => 1
  | ActionState.Flying => 2
  | ActionState.Punching => 3
  | ActionState.Jumping => 4
  | ActionState.Moving => 5
  | ActionState.Idle => 6

/-- An RGB color sample with channels already scaled into [0, 1] (the
source divides uint8 channels by 255 before any HLS work). -/
structure RgbQ where
  r : ℚ
  g : ℚ
  b : ℚ
deriving DecidableEq

/-- Convert a (B, G, R) byte triple to the scaled RGB sample, as done by
the channel reversal and the division by 255 in image_to_bool_mask. -/
def bgrToRgbQ (c : Nat × Nat × Nat) : RgbQ :=
  ⟨(c.2.2 : ℚ) / 255, (c.2.1 : ℚ) / 255, (c.1 : ℚ) / 255⟩

/-- colorsys.rgb_to_hls, used by the source on scalar colors (target colors
and colors_are_similar): returns (h, l, s). -/
def rgb_to_hls (r g b : ℚ) : ℚ × ℚ × ℚ :=
  let maxc := max r (max g b)
  let minc := min r (min g b)
  let l := (minc + maxc) / 2
  if minc = maxc then (0, l, 0)
  else
    let delta := maxc - minc
    let s := if l ≤ 1/2 then delta / (maxc + minc) else delta / (2 - maxc - minc)
    let rc := (maxc - r) / delta
    let gc := (maxc - g) / delta
    let bc := (maxc - b) / delta
    let h := if r = maxc then bc - gc
             else if g = maxc then 2 + rc - bc
             else 4 + gc - rc
    (Int.fract (h / 6), l, s)

/-- screen_read.colors_are_similar: scalar HLS similarity of two (R, G, B)
byte triples.  If either color has low saturation, only lightness is
compared; otherwise hue (with wrap-around), lightness and saturation are
all compared against their thresholds. -/
def colors_are_similar (c1 c2 : Nat × Nat × Nat)
    (hueThreshold lightnessThreshold saturationThreshold : ℚ) : Bool :=
  let hls1 := rgb_to_hls ((c1.1 : ℚ) / 255) ((c1.2.1 : ℚ) / 255) ((c1.2.2 : ℚ) / 255)
  let hls2 := rgb_to_hls ((c2.1 : ℚ) / 255) ((c2.2.1 : ℚ) / 255) ((c2.2.2 : ℚ) / 255)
  if hls1.2.2 < 1/10 ∨ hls2.2.2 < 1/10 then
    decide (|hls1.2.1 - hls2.2.1| < lightnessThreshold)
  else
    let hueDiff := |hls1.1 - hls2.1|
    let hueDiff := if 1/2 < hueDiff then 1 - hueDiff else hueDiff
    decide (hueDiff < hueThreshold ∧
      |hls1.2.1 - hls2.2.1| < lightnessThreshold ∧
      |hls1.2.2 - hls2.2.2| < saturationThreshold)

/-- The vectorized per-pixel lightness of check_color_similarity_vectorized:
(maxc + minc) / 2. -/
def hlsVecL (p : RgbQ) : ℚ :=
  (max p.r (max p.g p.b) + min p.r (min p.g p.b)) / 2

/-- The vectorized per-pixel saturation: 0 where delta = 0, otherwise the
usual HLS saturation split on lightness. -/
def hlsVecS (p : RgbQ) : ℚ :=
  let maxc := max p.r (max p.g p.b)
  let minc := min p.r (min p.g p.b)
  let delta := maxc - minc
  if 0 < delta then
    (if hlsVecL p ≤ 1/2 then delta / (maxc + minc)
     else delta / (2 - maxc - minc))
  else 0

/-- The vectorized per-pixel hue: the source builds h by three successive
np.where masks (r = maxc, then g = maxc, then b = maxc), so a later
matching channel overrides an earlier one - unlike colorsys's if/elif
order - then divides by 6 and wraps modulo 1. -/
def hlsVecH (p : RgbQ) : ℚ :=
  let maxc := max p.r (max p.g p.b)
  let minc := min p.r (min p.g p.b)
  let delta := maxc - minc
  let rc := if 0 < delta then (maxc - p.r) / delta else 0
  let gc := if 0 < delta then (maxc - p.g) / delta else 0
  let bc := if 0 < delta then (maxc - p.b) / delta else 0
  let h0 : ℚ := 0
  let h1 := if p.r = maxc then bc - gc else h0
  let h2 := if p.g = maxc then 2 + rc - bc else h1
  let h3 := if p.b = maxc then 4 + gc - rc else h2
  Int.fract (h3 / 6)

/-- np.mean over the image's per-pixel vectorized saturations. -/
def meanSat (img : List RgbQ) : ℚ :=
  (img.map hlsVecS).sum / img.length

/-- check_color_similarity_vectorized: per-pixel similarity of the whole
image against one (B, G, R) target.  The low-saturation branch is taken
for the WHOLE image when the target's saturation or the image's MEAN
saturation is below 0.1; in that case every pixel is compared on lightness
alone. -/
def check_color_similarity_vectorized (img : List RgbQ)
    (targetBgr : Nat × Nat × Nat)
    (hueThreshold lightnessThreshold saturationThreshold : ℚ) : List Bool :=
  let t := bgrToRgbQ targetBgr
  let thls := rgb_to_hls t.r t.g t.b
  let ms := meanSat img
  img.map fun p =>
    if thls.2.2 < 1/10 ∨ ms < 1/10 then
      decide (|hlsVecL p - thls.2.1| < lightnessThreshold)
    else
      let hueDiff := |hlsVecH p - thls.1|
      let hueDiff := min hueDiff (1 - hueDiff)
      decide (hueDiff < hueThreshold ∧
        |hlsVecL p - thls.2.1| < lightnessThreshold ∧
        |hlsVecS p - thls.2.2| < saturationThreshold)

/-- The masked assignment of image_to_bool_mask: cells marked similar are
forced to background (False), others keep their current value. -/
def applyBg (mask sim : List Bool) : List Bool :=
  List.zipWith (fun m s => if s then false else m) mask sim

/-- The default always_background_colors of image_to_bool_mask (the
stickman's own palette, as (B, G, R) triples). -/
def always_background_colors : List (Nat × Nat × Nat) :=
  [(255, 72, 0), (0, 141, 255), (186, 224, 255)]

/-- screen_read.image_to_bool_mask on a (flattened) buffer of (B, G, R)
pixels: start from an all-collision mask, clear pixels similar to the
target color, then clear pixels similar to each always-background color.
True = collision, False = background. -/
def image_to_bool_mask (img : List (Nat × Nat × Nat))
    (targetColor : Nat × Nat × Nat) (alwaysBg : List (Nat × Nat × Nat))
    (hueThreshold lightnessThreshold saturationThreshold : ℚ) : List Bool :=
  let rgb := img.map bgrToRgbQ
  let mask0 := List.replicate img.length true
  let mask1 := applyBg mask0 (check_color_similarity_vectorized rgb targetColor
    hueThreshold lightnessThreshold saturationThreshold)
  alwaysBg.foldl (fun m c => applyBg m (check_color_similarity_vectorized rgb c
    hueThreshold lightnessThreshold saturationThreshold)) mask1

/-- Counterexample image for the classifier, flattened, in (B, G, R)
bytes: a mid-gray pixel, a saturated red pixel (pushing the image's mean
saturation above 0.1), and a pixel equal to the target color. -/
def imgC4 : List (Nat × Nat × Nat) := [(125, 125, 125), (0, 0, 255), (100, 100, 150)]

/-- Counterexample target color (B, G, R) = (100, 100, 150): RGB
(150, 100, 100), saturation 0.2 and lightness 125/255 - the same lightness
as the gray pixel. -/
def targetC4 : Nat × Nat × Nat := (100, 100, 150)

/-- A channeling state one tick before timer expiry: channel still open,
blast position pending, no damage registered yet. -/
def blast0 : BlastState :=
  { kamehamehaTimer := 1/60, blastChannel := true, blastPos := some (0, 0)
    damageRects := [], isKamehameha := true }

/-- A stickman before the first collision-map refresh (collision_map is
None), airborne with no input. -/
def stickNone : Stickman := { stick0 with collisionMap := none }

/-- Stepping upward (step = 1): the loop lands on `cur + m` where every
probed step was collision-free; if it stopped short of the target the next
step collides; and at most the last step overshoots the target. -/
theorem resolveLoop_up_spec (probe : ℚ → Bool) (target : ℚ) :
    ∀ (fuel : ℕ) (cur : ℚ), target ≤ cur + fuel →
    ∃ m : ℕ, m ≤ fuel ∧ resolveLoop probe 1 target cur fuel = cur + m ∧
      (∀ k : ℕ, 1 ≤ k → k ≤ m → probe (cur + k) = false) ∧
      (cur + m < target → probe (cur + m + 1) = true) ∧
      (0 < m → cur + m - 1 < target) := by
  intro fuel
  induction fuel with
  | zero =>
    intro cur hf
    refine ⟨0, le_refl 0, by simp [resolveLoop], ?_, ?_, ?_⟩
    · intro k hk1 hk0; omega
    · intro h; simp only [Nat.cast_zero, add_zero] at h hf; linarith
    · intro h; omega
  | succ n ih =>
    intro cur hf
    by_cases hct : cur < target
    · by_cases hp : probe (cur + 1) = true
      · refine ⟨0, Nat.zero_le _, ?_, ?_, ?_, ?_⟩
        · simp [resolveLoop, hct, hp]
        · intro k hk1 hk0; omega
        · intro _; simpa using hp
        · intro h; omega
      · have hf' : target ≤ (cur + 1) + (n : ℚ) := by
          push_cast at hf ⊢; linarith
        obtain ⟨m, hm, hr, hall, hnext, hlast⟩ := ih (cur + 1) hf'
        refine ⟨m + 1, by omega, ?_, ?_, ?_, ?_⟩
        · simp only [resolveLoop, if_pos (show (0:ℚ) < 1 by norm_num), hct,
            if_true, hp, if_false, Bool.false_eq_true]
          rw [hr]; push_cast; ring
        · intro k hk1 hkm
          rcases Nat.eq_or_lt_of_le hk1 with h1 | h1
          · simpa [← h1] using (Bool.not_eq_true _).mp hp
          · have hk2 : 2 ≤ k := h1
            have := hall (k - 1) (by omega) (by omega)
            have hcast : ((k - 1 : ℕ) : ℚ) = (k : ℚ) - 1 := by
              push_cast [Nat.cast_sub (by omega : 1 ≤ k)]; ring
            rw [hcast] at this
            convert this using 2
            ring
        · intro h
          have h' : (cur + 1) + m < target := by push_cast at h ⊢; linarith
          have := hnext h'
          convert this using 2
          push_cast; ring
        · intro _
          rcases Nat.eq_zero_or_pos m with h0 | h0
          · subst h0; push_cast; linarith
          · have := hlast h0
            push_cast at this ⊢; linarith
    · refine ⟨0, Nat.zero_le _, ?_, ?_, ?_, ?_⟩
      · simp [resolveLoop, hct]
      · intro k hk1 hk0; omega
      · intro h; simp only [Nat.cast_zero, add_zero] at h; exact absurd h hct
      · intro h; omega

/-- Stepping downward (step = -1): mirror of resolveLoop_up_spec. -/
theorem resolveLoop_down_spec (probe : ℚ → Bool) (target : ℚ) :
    ∀ (fuel : ℕ) (cur : ℚ), cur - fuel ≤ target →
    ∃ m : ℕ, m ≤ fuel ∧ resolveLoop probe (-1) target cur fuel = cur - m ∧
      (∀ k : ℕ, 1 ≤ k → k ≤ m → probe (cur - k) = false) ∧
      (target < cur - m → probe (cur - m - 1) = true) ∧
      (0 < m → target < cur - m + 1) := by
  intro fuel
  induction fuel with
  | zero =>
    intro cur hf
    refine ⟨0, le_refl 0, by simp [resolveLoop], ?_, ?_, ?_⟩
    · intro k hk1 hk0; omega
    · intro h; simp only [Nat.cast_zero, sub_zero] at h hf; linarith
    · intro h; omega
  | succ n ih =>
    intro cur hf
    by_cases hct : target < cur
    · by_cases hp : probe (cur + -1) = true
      · refine ⟨0, Nat.zero_le _, ?_, ?_, ?_, ?_⟩
        · simp [resolveLoop, hct, hp]
        · intro k hk1 hk0; omega
        · intro _
          have : cur - (0:ℕ) - 1 = cur + -1 := by push_cast; ring
          rw [this]; exact hp
        · intro h; omega
      · have hf' : (cur + -1) - (n : ℚ) ≤ target := by
          push_cast at hf ⊢; linarith
        obtain ⟨m, hm, hr, hall, hnext, hlast⟩ := ih (cur + -1) hf'
        refine ⟨m + 1, by omega, ?_, ?_, ?_, ?_⟩
        · simp only [resolveLoop, if_neg (show ¬(0:ℚ) < -1 by norm_num), hct,
            if_true, hp, if_false, Bool.false_eq_true]
          rw [hr]; push_cast; ring
        · intro k hk1 hkm
          rcases Nat.eq_or_lt_of_le hk1 with h1 | h1
          · have : cur - (k:ℚ) = cur + -1 := by rw [← h1]; push_cast; ring
            rw [this]; exact (Bool.not_eq_true _).mp hp
          · have := hall (k - 1) (by omega) (by omega)
            have hcast : ((k - 1 : ℕ) : ℚ) = (k : ℚ) - 1 := by
              push_cast [Nat.cast_sub (by omega : 1 ≤ k)]; ring
            rw [hcast] at this
            convert this using 2
            ring
        · intro h
          have h' : target < (cur + -1) - m := by push_cast at h ⊢; linarith
          have := hnext h'
          convert this using 2
          push_cast; ring
        · intro _
          rcases Nat.eq_zero_or_pos m with h0 | h0
          · subst h0; push_cast; linarith
          · have := hlast h0
            push_cast at this ⊢; linarith
    · refine ⟨0, Nat.zero_le _, ?_, ?_, ?_, ?_⟩
      · simp [resolveLoop, hct]
      · intro k hk1 hk0; omega
      · intro h; simp only [Nat.cast_zero, sub_zero] at h; exact absurd h hct
      · intro h; omega

/-- The stepping loop as instantiated by both resolvers (start x, target
x + d, fuel ⌈|d|⌉): the result is x + m steps of dirStep d, every probed
step was collision-free, the result overshoots the target by less than one
step, and if it stopped short of the target the next step collides. -/
theorem resolve_step_spec (probe : ℚ → Bool) (x d : ℚ) :
    ∃ m : ℕ,
      resolveLoop probe (dirStep d) (x + d) x (⌈|d|⌉.toNat) = x + m * dirStep d ∧
      (m : ℚ) < |d| + 1 ∧
      (∀ k : ℕ, 1 ≤ k → k ≤ m → probe (x + k * dirStep d) = false) ∧
      ((m : ℚ) < |d| → probe (x + (m + 1) * dirStep d) = true) := by
  have habs : (⌈|d|⌉.toNat : ℚ) = (⌈|d|⌉ : ℚ) := by
    have h0 : (0:ℤ) ≤ ⌈|d|⌉ := Int.ceil_nonneg (abs_nonneg d)
    exact_mod_cast congrArg (fun z : ℤ => (z : ℚ)) (Int.toNat_of_nonneg h0)
  have hceil : |d| ≤ (⌈|d|⌉.toNat : ℚ) := by rw [habs]; exact Int.le_ceil _
  by_cases hd : 0 < d
  · have hstep : dirStep d = 1 := by simp [dirStep, hd]
    rw [hstep]
    have hf : x + d ≤ x + (⌈|d|⌉.toNat : ℚ) := by
      have : d ≤ |d| := le_abs_self d
      linarith
    obtain ⟨m, _, hr, hall, hnext, hlast⟩ :=
      resolveLoop_up_spec probe (x + d) ⌈|d|⌉.toNat x hf
    refine ⟨m, by simpa using hr, ?_, ?_, ?_⟩
    · rcases Nat.eq_zero_or_pos m with h0 | h0
      · subst h0; simp; positivity
      · have := hlast h0
        have hda : |d| = d := abs_of_pos hd
        rw [hda]; linarith
    · intro k hk1 hkm; simpa using hall k hk1 hkm
    · intro hm
      have hda : |d| = d := abs_of_pos hd
      have : x + m < x + d := by rw [hda] at hm; linarith
      have := hnext this
      convert this using 2
      ring
  · have hstep : dirStep d = -1 := by simp [dirStep, hd]
    rw [hstep]
    have hdle : d ≤ 0 := le_of_not_lt hd
    have hf : x - (⌈|d|⌉.toNat : ℚ) ≤ x + d := by
      have : -d ≤ |d| := neg_le_abs d
      linarith
    obtain ⟨m, _, hr, hall, hnext, hlast⟩ :=
      resolveLoop_down_spec probe (x + d) ⌈|d|⌉.toNat x hf
    refine ⟨m, ?_, ?_, ?_, ?_⟩
    · rw [hr]; ring
    · rcases Nat.eq_zero_or_pos m with h0 | h0
      · subst h0; simp; positivity
      · have := hlast h0
        have hda : |d| = -d := abs_of_nonpos hdle
        rw [hda]; linarith
    · intro k hk1 hkm
      have := hall k hk1 hkm
      convert this using 2
      ring
    · intro hm
      have hda : |d| = -d := abs_of_nonpos hdle
      have : x + d < x - m := by rw [hda] at hm; linarith
      have := hnext this
      convert this using 2
      ring

/-- Accessors of _move_and_collide's result, read off the final clamp. -/
theorem move_and_collide_x (s : Stickman) (dt : ℚ) :
    (s.move_and_collide dt).x =
      max 0 (min (1920 - (s.width : ℚ)) (s.horizontal_phase dt).1) := rfl

theorem move_and_collide_y (s : Stickman) (dt : ℚ) :
    (s.move_and_collide dt).y =
      max 0 (min (1200 - (s.height : ℚ))
        (s.vertical_phase (s.horizontal_phase dt).1 dt).1) := rfl

theorem move_and_collide_vx (s : Stickman) (dt : ℚ) :
    (s.move_and_collide dt).vx =
      if max 0 (min (1920 - (s.width : ℚ)) (s.horizontal_phase dt).1) = 0 ∨
         max 0 (min (1920 - (s.width : ℚ)) (s.horizontal_phase dt).1) =
           1920 - (s.width : ℚ)
      then 0 else (s.horizontal_phase dt).2 := rfl

theorem move_and_collide_vy (s : Stickman) (dt : ℚ) :
    (s.move_and_collide dt).vy =
      if max 0 (min (1200 - (s.height : ℚ))
           (s.vertical_phase (s.horizontal_phase dt).1 dt).1) = 0 ∨
         max 0 (min (1200 - (s.height : ℚ))
           (s.vertical_phase (s.horizontal_phase dt).1 dt).1) =
           1200 - (s.height : ℚ)
      then 0 else (s.vertical_phase (s.horizontal_phase dt).1 dt).2 := rfl

/-- C6: after every physics tick's movement resolution the position
satisfies 0 <= x <= 1920 - width and 0 <= y <= 1200 - height, and a
position on a bound has the corresponding velocity component zeroed. -/
theorem move_and_collide_within_world_bounds (s : Stickman) (dt : ℚ)
    (hw : (s.width : ℚ) ≤ 1920) (hh : (s.height : ℚ) ≤ 1200) :
    0 ≤ (s.move_and_collide dt).x ∧
    (s.move_and_collide dt).x ≤ 1920 - (s.width : ℚ) ∧
    0 ≤ (s.move_and_collide dt).y ∧
    (s.move_and_collide dt).y ≤ 1200 - (s.height : ℚ) ∧
    (((s.move_and_collide dt).x = 0 ∨
      (s.move_and_collide dt).x = 1920 - (s.width : ℚ)) →
      (s.move_and_collide dt).vx = 0) ∧
    (((s.move_and_collide dt).y = 0 ∨
      (s.move_and_collide dt).y = 1200 - (s.height : ℚ)) →
      (s.move_and_collide dt).vy = 0) := by
  refine ⟨?_, ?_, ?_, ?_, ?_, ?_⟩
  · rw [move_and_collide_x]; exact le_max_left 0 _
  · rw [move_and_collide_x]
    exact max_le (by linarith) (min_le_left _ _)
  · rw [move_and_collide_y]; exact le_max_left 0 _
  · rw [move_and_collide_y]
    exact max_le (by linarith) (min_le_left _ _)
  · intro hc
    rw [move_and_collide_x] at hc
    rw [move_and_collide_vx]
    exact if_pos hc
  · intro hc
    rw [move_and_collide_y] at hc
    rw [move_and_collide_vy]
    exact if_pos hc

/-- Witness for move_and_collide_within_world_bounds at the scenario
stickman after one tick. -/
theorem move_and_collide_within_world_bounds_witness :
    0 ≤ (stick0.move_and_collide (1/60)).x ∧
    (stick0.move_and_collide (1/60)).x ≤ 1920 - (stick0.width : ℚ) :=
  ⟨(move_and_collide_within_world_bounds stick0 (1/60) (by norm_num [stick0])
      (by norm_num [stick0])).1,
   (move_and_collide_within_world_bounds stick0 (1/60) (by norm_num [stick0])
      (by norm_num [stick0])).2.1⟩

unseal Rat.mul Rat.add Rat.sub Rat.inv in
/-- C7: with Flying inactive, gravity * dt is added to vy and the result is
clamped at max_fall_speed, while gravity is a no-op when Flying; and the
spec scenario: from (1000, 200) at rest over an empty map, one tick at
dt = 1/60 with gravity 1800 gives vy = 30 and position (1000, 200.5). -/
theorem apply_gravity_clamps_and_tick_scenario :
    (∀ (s : Stickman) (dt : ℚ), s.isFlying = false →
      (s.apply_gravity dt).vy = min (s.vy + s.gravity * dt) s.maxFallSpeed ∧
      (s.apply_gravity dt).vx = s.vx ∧ (s.apply_gravity dt).x = s.x ∧
      (s.apply_gravity dt).y = s.y) ∧
    (∀ (s : Stickman) (dt : ℚ), s.isFlying = true → s.apply_gravity dt = s) ∧
    ((stick0.update (1/60)).vy = 30 ∧ (stick0.update (1/60)).x = 1000 ∧
      (stick0.update (1/60)).y = 401/2) := by
  refine ⟨?_, ?_, by decide⟩
  · intro s dt hfl
    simp only [Stickman.apply_gravity, hfl, Bool.false_eq_true, if_false]
    refine ⟨?_, by trivial, by trivial, by trivial⟩
    by_cases h1 : s.vy + s.gravity * dt > s.maxFallSpeed
    · simp only [if_pos h1]
      exact (min_eq_right h1.le).symm
    · simp only [if_neg h1]
      exact (min_eq_left (not_lt.mp h1)).symm
  · intro s dt hfl
    simp [Stickman.apply_gravity, hfl]

/-- Witness for apply_gravity_clamps_and_tick_scenario: one non-flying
gravity application at the scenario stickman. -/
theorem apply_gravity_clamps_witness :
    (stick0.apply_gravity (1/60)).vy =
      min (stick0.vy + stick0.gravity * (1/60)) stick0.maxFallSpeed :=
  (apply_gravity_clamps_and_tick_scenario.1 stick0 (1/60) rfl).1

/-- C8: for every pair of simultaneously-true action conditions the
selected state is the higher-priority one under Channeling > Flying >
Punching > Jumping > Moving > Idle; the selected state's own condition
holds; and Channeling together with Punching selects Channeling. -/
theorem animate_priority_selection :
    ∀ (st : ActionState) (k f p j ml mr : Bool),
      (actionCond st k f p j ml mr = true →
        actionPriority (select_action k f p j ml mr) ≤ actionPriority st) ∧
      actionCond (select_action k f p j ml mr) k f p j ml mr = true ∧
      (k = true → p = true →
        select_action k f p j ml mr = ActionState.Channeling) := by
  intro st
  cases st <;> decide

/-- Witness for animate_priority_selection: Channeling and Punching both
requested; the Punching condition holds yet Channeling is selected. -/
theorem animate_priority_selection_witness :
    actionPriority (select_action true false true false false false) ≤
      actionPriority ActionState.Punching ∧
    select_action true false true false false false = ActionState.Channeling :=
  ⟨(animate_priority_selection ActionState.Punching true false true false
      false false).1 (by decide),
   (animate_priority_selection ActionState.Punching true false true false
      false false).2.2 rfl rfl⟩

/-- C9 counterexample: a failing capture is NOT contained inside the
refresh call - update_collision_map has no handler, so the error escapes
(second component true), contradicting the claimed containment. -/
theorem capture_failure_escapes_refresh :
    (update_collision_map (some cmEmpty) (some (Except.error ()))).2 = true := rfl

/-- C9 amended: on capture failure the previously published collision map
is left in place (the assignment never executes), but the exception
propagates out of the refresh call. -/
theorem capture_failure_keeps_previous_map :
    ∀ current : Option CollisionMap,
      update_collision_map current (some (Except.error ())) = (current, true) :=
  fun _ => rfl

/-- C10: with no collision map published yet, every collision query reports
no collision, is_on_ground is false, and a non-flying jump request has no
effect. -/
theorem no_map_means_no_collision (s : Stickman) (hm : s.collisionMap = none)
    (hf : s.isFlying = false) :
    (∀ x y : ℚ, aabb_collides s.collisionMap s.collisionMapX s.collisionMapY
      s.width s.height x y = false) ∧
    (∀ dx : ℚ, s.can_move_horizontal dx = true) ∧
    (∀ dy : ℚ, s.can_move_vertical dy = true) ∧
    s.is_on_ground = false ∧
    s.try_jump = s := by
  refine ⟨?_, ?_, ?_, ?_, ?_⟩ <;>
    simp [aabb_collides, Stickman.can_move_horizontal,
      Stickman.can_move_vertical, Stickman.is_on_ground, Stickman.try_jump,
      hm, hf]

/-- Witness for no_map_means_no_collision at a concrete map-less
stickman. -/
theorem no_map_means_no_collision_witness :
    stickNone.is_on_ground = false ∧ stickNone.try_jump = stickNone :=
  ⟨(no_map_means_no_collision stickNone rfl rfl).2.2.2.1,
   (no_map_means_no_collision stickNone rfl rfl).2.2.2.2⟩

unseal Rat.mul Rat.add Rat.sub Rat.inv in
/-- C1 counterexample: in a tick where the only obstacle sits in the bottom
5 rows of the target AABB, the step-height-tolerant probe at the full-step
position reports no collision, yet the tick zeroes horizontal velocity -
because the full-step probe of can_move_horizontal is the strict variant,
not the tolerant one the claim asserts for every horizontal probe. -/
theorem horizontal_fullstep_probe_is_strict :
    (stickLedge.move_and_collide (1/60)).vx = 0 ∧
    stickLedge.vx ≠ 0 ∧
    aabb_collides stickLedge.collisionMap stickLedge.collisionMapX
      stickLedge.collisionMapY stickLedge.width stickLedge.height
      (stickLedge.x + stickLedge.vx * (1/60)) stickLedge.y = true ∧
    aabb_collides_ignore_bottom stickLedge.collisionMap stickLedge.collisionMapX
      stickLedge.collisionMapY stickLedge.width stickLedge.height
      (stickLedge.x + stickLedge.vx * (1/60)) stickLedge.y 5 = false := by
  refine ⟨by decide, by decide, by decide, by decide⟩

/-- C1 amended: for dx nonzero the resolver first attempts the full-step
move probed with the STRICT variant; if that strict probe collides it falls
back to single-pixel stepping probed with the step-height-tolerant variant,
stopping just before the first colliding step, and zeroes horizontal
velocity. -/
theorem horizontal_resolution_strict_then_tolerant (s : Stickman) (dt : ℚ)
    (hdx : s.vx * dt ≠ 0) :
    (aabb_collides s.collisionMap s.collisionMapX s.collisionMapY s.width
        s.height (s.x + s.vx * dt) s.y = false →
      s.horizontal_phase dt = (s.x + s.vx * dt, s.vx)) ∧
    (aabb_collides s.collisionMap s.collisionMapX s.collisionMapY s.width
        s.height (s.x + s.vx * dt) s.y = true →
      (s.horizontal_phase dt).2 = 0 ∧
      ∃ m : ℕ, (s.horizontal_phase dt).1 = s.x + m * dirStep (s.vx * dt) ∧
        (m : ℚ) < |s.vx * dt| + 1 ∧
        (∀ k : ℕ, 1 ≤ k → k ≤ m →
          aabb_collides_ignore_bottom s.collisionMap s.collisionMapX
            s.collisionMapY s.width s.height
            (s.x + k * dirStep (s.vx * dt)) s.y 5 = false) ∧
        ((m : ℚ) < |s.vx * dt| →
          aabb_collides_ignore_bottom s.collisionMap s.collisionMapX
            s.collisionMapY s.width s.height
            (s.x + ((m : ℚ) + 1) * dirStep (s.vx * dt)) s.y 5 = true)) := by
  constructor
  · intro hns
    have hcan : s.can_move_horizontal (s.vx * dt) = true := by
      unfold Stickman.can_move_horizontal
      split_ifs with h1
      · rfl
      · simp [hns]
    simp [Stickman.horizontal_phase, hdx, hcan]
  · intro hcol
    have hcan : s.can_move_horizontal (s.vx * dt) = false := by
      unfold Stickman.can_move_horizontal
      split_ifs with h1
      · exfalso
        rw [Option.isNone_iff_eq_none] at h1
        rw [h1] at hcol
        simp [aabb_collides] at hcol
      · simp [hcol]
    have hphase : s.horizontal_phase dt =
        (s.resolve_horizontal s.x s.y (s.vx * dt), 0) := by
      simp [Stickman.horizontal_phase, hdx, hcan]
    rw [hphase]
    refine ⟨rfl, ?_⟩
    obtain ⟨m, hr, hlt, hall, hnext⟩ :=
      resolve_step_spec
        (fun nx => aabb_collides_ignore_bottom s.collisionMap s.collisionMapX
          s.collisionMapY s.width s.height nx s.y 5) s.x (s.vx * dt)
    exact ⟨m, by simpa [Stickman.resolve_horizontal] using hr, hlt, hall, hnext⟩

unseal Rat.mul Rat.add Rat.sub Rat.inv in
/-- Witness for horizontal_resolution_strict_then_tolerant: the strict
full-step probe collides for stickLedge, so the fallback zeroes vx. -/
theorem horizontal_resolution_strict_then_tolerant_witness :
    (stickLedge.horizontal_phase (1/60)).2 = 0 :=
  ((horizontal_resolution_strict_then_tolerant stickLedge (1/60)
      (by decide)).2 (by decide)).1

unseal Rat.mul Rat.add Rat.sub Rat.inv in
/-- C3 counterexample: stepping from x = 0 toward the attempted target
x + dx = 1/2 over an obstacle-free probe path, the resolver returns 1,
strictly beyond the attempted target - the result does not lie between
the start and the target. -/
theorem resolve_horizontal_overshoots_target :
    stick0.resolve_horizontal 0 0 (1/2) = 1 ∧
    ¬(stick0.resolve_horizontal 0 0 (1/2) ≤ 0 + 1/2) := by
  refine ⟨by decide, by decide⟩

/-- C3 amended: both stepwise resolvers return start + m whole steps in the
travel direction where every probed step was collision-free (so the result
is never past the first blocked cell), and m is less than |displacement|
+ 1 (monotonic approach; the final step may overshoot a fractional target
by less than one pixel). -/
theorem stepwise_resolvers_monotonic (s : Stickman) (x y d : ℚ) :
    (∃ m : ℕ, s.resolve_horizontal x y d = x + m * dirStep d ∧
      (m : ℚ) < |d| + 1 ∧
      (∀ k : ℕ, 1 ≤ k → k ≤ m →
        aabb_collides_ignore_bottom s.collisionMap s.collisionMapX
          s.collisionMapY s.width s.height (x + k * dirStep d) y 5 = false) ∧
      ((m : ℚ) < |d| →
        aabb_collides_ignore_bottom s.collisionMap s.collisionMapX
          s.collisionMapY s.width s.height
          (x + ((m : ℚ) + 1) * dirStep d) y 5 = true)) ∧
    (∃ m : ℕ, s.resolve_vertical x y d = y + m * dirStep d ∧
      (m : ℚ) < |d| + 1 ∧
      (∀ k : ℕ, 1 ≤ k → k ≤ m →
        aabb_collides s.collisionMap s.collisionMapX s.collisionMapY
          s.width s.height x (y + k * dirStep d) = false) ∧
      ((m : ℚ) < |d| →
        aabb_collides s.collisionMap s.collisionMapX s.collisionMapY
          s.width s.height x (y + ((m : ℚ) + 1) * dirStep d) = true)) := by
  constructor
  · obtain ⟨m, hr, hlt, hall, hnext⟩ :=
      resolve_step_spec
        (fun nx => aabb_collides_ignore_bottom s.collisionMap s.collisionMapX
          s.collisionMapY s.width s.height nx y 5) x d
    exact ⟨m, by simpa [Stickman.resolve_horizontal] using hr, hlt, hall, hnext⟩
  · obtain ⟨m, hr, hlt, hall, hnext⟩ :=
      resolve_step_spec
        (fun ny => aabb_collides s.collisionMap s.collisionMapX
          s.collisionMapY s.width s.height x ny) y d
    exact ⟨m, by simpa [Stickman.resolve_vertical] using hr, hlt, hall, hnext⟩

/-- Witness for stepwise_resolvers_monotonic at stickLedge from (0, 0) with
displacement 1/2. -/
theorem stepwise_resolvers_monotonic_witness :
    (∃ m : ℕ, stickLedge.resolve_horizontal 0 0 (1/2) = 0 + m * dirStep (1/2) ∧
      (m : ℚ) < |(1/2 : ℚ)| + 1 ∧
      (∀ k : ℕ, 1 ≤ k → k ≤ m →
        aabb_collides_ignore_bottom stickLedge.collisionMap
          stickLedge.collisionMapX stickLedge.collisionMapY
          stickLedge.width stickLedge.height
          (0 + k * dirStep (1/2)) 0 5 = false) ∧
      ((m : ℚ) < |(1/2 : ℚ)| →
        aabb_collides_ignore_bottom stickLedge.collisionMap
          stickLedge.collisionMapX stickLedge.collisionMapY
          stickLedge.width stickLedge.height
          (0 + ((m : ℚ) + 1) * dirStep (1/2)) 0 5 = true)) ∧
    (∃ m : ℕ, stickLedge.resolve_vertical 0 0 (1/2) = 0 + m * dirStep (1/2) ∧
      (m : ℚ) < |(1/2 : ℚ)| + 1 ∧
      (∀ k : ℕ, 1 ≤ k → k ≤ m →
        aabb_collides stickLedge.collisionMap stickLedge.collisionMapX
          stickLedge.collisionMapY stickLedge.width stickLedge.height
          0 (0 + k * dirStep (1/2)) = false) ∧
      ((m : ℚ) < |(1/2 : ℚ)| →
        aabb_collides stickLedge.collisionMap stickLedge.collisionMapX
          stickLedge.collisionMapY stickLedge.width stickLedge.height
          0 (0 + ((m : ℚ) + 1) * dirStep (1/2)) = true)) :=
  stepwise_resolvers_monotonic stickLedge 0 0 (1/2)

unseal Rat.mul Rat.add Rat.sub Rat.inv in
/-- C2 counterexample: the channeling timer expires on a tick where the
blast audio is still busy; on the next tick the audio reports finished,
yet the deferred damage-region effect never fires (damage_rects stays
empty), because expiry cleared the blast position and stopped the
polling - the resolver does NOT keep polling after the timer expires. -/
theorem blast_effect_dropped_on_timer_expiry :
    (blastTick (blastTick blast0 true (1/60)) false (1/60)).damageRects =
      [] := by decide

/-- C2 amended: the deferred effect never fires while the channel reports
busy, and it can only fire on a tick whose starting timer is positive with
an open, idle channel and a pending blast position; if the timer expires
while the audio is still busy, the blast position is cleared (so the
effect is dropped, not deferred further), and once the timer is
non-positive the whole block is inert. -/
theorem blast_effect_gating (s : BlastState) (busy : Bool) (dt : ℚ) :
    (busy = true → (blastTick s busy dt).damageRects = s.damageRects) ∧
    (s.kamehamehaTimer ≤ 0 → blastTick s busy dt = s) ∧
    (0 < s.kamehamehaTimer → busy = true → s.kamehamehaTimer - dt ≤ 0 →
      (blastTick s busy dt).blastPos = none ∧
      (blastTick s busy dt).kamehamehaTimer = 0 ∧
      (blastTick s busy dt).isKamehameha = false) ∧
    ((blastTick s busy dt).damageRects ≠ s.damageRects →
      busy = false ∧ s.blastChannel = true ∧ 0 < s.kamehamehaTimer ∧
        s.blastPos.isSome = true) := by
  refine ⟨?_, ?_, ?_, ?_⟩
  · intro hb
    by_cases ht : 0 < s.kamehamehaTimer
    · have hnc : ¬(s.blastChannel = true ∧ busy = false) := by simp [hb]
      simp only [blastTick, if_pos ht, if_neg hnc]
      split_ifs <;> rfl
    · simp [blastTick, ht]
  · intro ht
    simp [blastTick, not_lt.mpr ht]
  · intro ht hb hdt
    have hnc : ¬(s.blastChannel = true ∧ busy = false) := by simp [hb]
    simp only [blastTick, if_pos ht, if_neg hnc, if_pos hdt]
    exact ⟨by trivial, by trivial, by trivial⟩
  · intro hne
    by_cases ht : 0 < s.kamehamehaTimer
    · by_cases hcb : s.blastChannel = true ∧ busy = false
      · cases hp : s.blastPos with
        | none =>
          exfalso
          apply hne
          simp only [blastTick, if_pos ht, if_pos hcb, hp]
          split_ifs <;> rfl
        | some p =>
          exact ⟨hcb.2, hcb.1, ht, by simp [hp]⟩
      · exfalso
        apply hne
        simp only [blastTick, if_pos ht, if_neg hcb]
        split_ifs <;> rfl
    · exfalso
      apply hne
      simp [blastTick, ht]

/-- Witness for blast_effect_gating: a busy tick leaves damage_rects
untouched at the concrete channeling state. -/
theorem blast_effect_gating_witness :
    (blastTick blast0 true (1/60)).damageRects = blast0.damageRects :=
  (blast_effect_gating blast0 true (1/60)).1 rfl

/-- numpy's region.any() over a slice holds iff some cell inside the slice
bounds is True. -/
theorem regionAny_iff (cm : CollisionMap) (top bot left right : Nat) :
    regionAny cm top bot left right = true ↔
    ∃ i j : ℕ, top ≤ i ∧ i < bot ∧ left ≤ j ∧ j < right ∧
      cm.cell i j = true := by
  unfold regionAny
  rw [List.any_eq_true]
  constructor
  · rintro ⟨i, hi, hinner⟩
    rw [List.mem_range] at hi
    rw [List.any_eq_true] at hinner
    obtain ⟨j, hj, hc⟩ := hinner
    rw [List.mem_range] at hj
    exact ⟨top + i, left + j, by omega, by omega, by omega, by omega, hc⟩
  · rintro ⟨i, j, h1, h2, h3, h4, hc⟩
    refine ⟨i - top, by rw [List.mem_range]; omega, ?_⟩
    rw [List.any_eq_true]
    refine ⟨j - left, by rw [List.mem_range]; omega, ?_⟩
    have e1 : top + (i - top) = i := by omega
    have e2 : left + (j - left) = j := by omega
    rw [e1, e2]
    exact hc

/-- The AABB query holds iff some grid cell lies inside both the grid and
the world-space query rectangle translated by the map offset. -/
theorem aabb_collides_some_iff (cm : CollisionMap) (cmx cmy : Int)
    (w h : Nat) (x y : ℚ) :
    aabb_collides (some cm) cmx cmy w h x y = true ↔
      ∃ i j : ℕ, i < cm.H ∧ j < cm.W ∧
        ⌊y⌋ - cmy ≤ (i : ℤ) ∧ (i : ℤ) < ⌈y + (h : ℚ)⌉ - cmy ∧
        ⌊x⌋ - cmx ≤ (j : ℤ) ∧ (j : ℤ) < ⌈x + (w : ℚ)⌉ - cmx ∧
        cm.cell i j = true := by
  simp only [aabb_collides]
  by_cases hg1 : (⌈x + (w : ℚ)⌉ - cmx ≤ 0 ∨ ⌈y + (h : ℚ)⌉ - cmy ≤ 0 ∨
      (cm.W : ℤ) ≤ ⌊x⌋ - cmx ∨ (cm.H : ℤ) ≤ ⌊y⌋ - cmy)
  · rw [if_pos hg1]
    simp only [Bool.false_eq_true, false_iff]
    rintro ⟨i, j, hiH, hjW, h1, h2, h3, h4, _⟩
    rcases hg1 with hg | hg | hg | hg <;> omega
  · rw [if_neg hg1]
    push_neg at hg1
    obtain ⟨hR0, hB0, hLW, hTH⟩ := hg1
    by_cases hg2 : (min cm.W (⌈x + (w : ℚ)⌉ - cmx).toNat ≤
        (max 0 (⌊x⌋ - cmx)).toNat ∨
        min cm.H (⌈y + (h : ℚ)⌉ - cmy).toNat ≤ (max 0 (⌊y⌋ - cmy)).toNat)
    · rw [if_pos hg2]
      simp only [Bool.false_eq_true, false_iff]
      rintro ⟨i, j, hiH, hjW, h1, h2, h3, h4, _⟩
      rcases hg2 with hg | hg <;> omega
    · rw [if_neg hg2]
      push_neg at hg2
      obtain ⟨hx2, hy2⟩ := hg2
      rw [regionAny_iff]
      constructor
      · rintro ⟨i, j, h1, h2, h3, h4, hc⟩
        exact ⟨i, j, by omega, by omega, by omega, by omega, by omega,
          by omega, hc⟩
      · rintro ⟨i, j, hiH, hjW, h1, h2, h3, h4, hc⟩
        exact ⟨i, j, by omega, by omega, by omega, by omega, hc⟩

/-- C5: the collision query translates the world rectangle into the map's
local grid, clamps it, and holds iff some cell of the clamped rectangle is
true; rectangles entirely outside the captured region report no collision,
and over an all-false map every query reports no collision. -/
theorem aabb_collides_clamped_query (cm : CollisionMap) (cmx cmy : Int)
    (w h : Nat) (x y : ℚ) :
    (aabb_collides (some cm) cmx cmy w h x y = true ↔
      ∃ i j : ℕ, i < cm.H ∧ j < cm.W ∧
        ⌊y⌋ - cmy ≤ (i : ℤ) ∧ (i : ℤ) < ⌈y + (h : ℚ)⌉ - cmy ∧
        ⌊x⌋ - cmx ≤ (j : ℤ) ∧ (j : ℤ) < ⌈x + (w : ℚ)⌉ - cmx ∧
        cm.cell i j = true) ∧
    ((⌈x + (w : ℚ)⌉ - cmx ≤ 0 ∨ ⌈y + (h : ℚ)⌉ - cmy ≤ 0 ∨
      (cm.W : ℤ) ≤ ⌊x⌋ - cmx ∨ (cm.H : ℤ) ≤ ⌊y⌋ - cmy) →
      aabb_collides (some cm) cmx cmy w h x y = false) ∧
    ((∀ i j : ℕ, cm.cell i j = false) →
      aabb_collides (some cm) cmx cmy w h x y = false) := by
  refine ⟨aabb_collides_some_iff cm cmx cmy w h x y, ?_, ?_⟩
  · intro hg
    cases hq : aabb_collides (some cm) cmx cmy w h x y
    · rfl
    · exfalso
      obtain ⟨i, j, hiH, hjW, h1, h2, h3, h4, _⟩ :=
        (aabb_collides_some_iff cm cmx cmy w h x y).mp hq
      rcases hg with hg | hg | hg | hg <;> omega
  · intro hall
    cases hq : aabb_collides (some cm) cmx cmy w h x y
    · rfl
    · exfalso
      obtain ⟨i, j, _, _, _, _, _, _, hc⟩ :=
        (aabb_collides_some_iff cm cmx cmy w h x y).mp hq
      rw [hall i j] at hc
      exact Bool.false_ne_true hc

/-- Witness for aabb_collides_clamped_query: any AABB over the all-false
map reports no collision. -/
theorem aabb_collides_clamped_query_witness :
    aabb_collides (some cmEmpty) 0 0 21 30 1000 (401/2) = false :=
  (aabb_collides_clamped_query cmEmpty 0 0 21 30 1000 (401/2)).2.2
    (fun _ _ => rfl)

/-- The per-target similarity list has one entry per pixel. -/
theorem check_color_similarity_vectorized_length (img : List RgbQ)
    (t : Nat × Nat × Nat) (hT lT sT : ℚ) :
    (check_color_similarity_vectorized img t hT lT sT).length = img.length := by
  simp [check_color_similarity_vectorized]

/-- A masked background-assignment clears exactly the similar cells. -/
theorem applyBg_getD (mask sim : List Bool) (i : ℕ) (hm : i < mask.length)
    (hs : i < sim.length) :
    ((applyBg mask sim).getD i true = false ↔
      (mask.getD i true = false ∨ sim.getD i false = true)) := by
  unfold applyBg
  have hlen : i < (List.zipWith (fun m s => if s then false else m) mask
      sim).length := by
    rw [List.length_zipWith]; omega
  rw [List.getD_eq_getElem _ _ hlen, List.getElem_zipWith,
      List.getD_eq_getElem _ _ hm, List.getD_eq_getElem _ _ hs]
  cases hms : mask[i] <;> cases hss : sim[i] <;> simp

/-- Folding background-assignments over a color list clears a cell iff it
was already clear or matched one of the colors. -/
theorem foldl_applyBg_getD (img : List RgbQ) (hT lT sT : ℚ) (i : ℕ)
    (hi : i < img.length) :
    ∀ (cs : List (Nat × Nat × Nat)) (m : List Bool), m.length = img.length →
    (((cs.foldl (fun acc c =>
        applyBg acc (check_color_similarity_vectorized img c hT lT sT)) m).getD
          i true = false) ↔
      (m.getD i true = false ∨ ∃ c ∈ cs,
        (check_color_similarity_vectorized img c hT lT sT).getD i false =
          true)) := by
  intro cs
  induction cs with
  | nil => intro m hm; simp
  | cons c cs ih =>
    intro m hm
    simp only [List.foldl_cons]
    have hlen : (applyBg m (check_color_similarity_vectorized img c hT lT
        sT)).length = img.length := by
      unfold applyBg
      rw [List.length_zipWith, hm, check_color_similarity_vectorized_length]
      exact min_self _
    rw [ih _ hlen, applyBg_getD _ _ i (by omega)
      (by rw [check_color_similarity_vectorized_length]; omega)]
    rw [List.exists_mem_cons_iff]
    tauto

unseal Rat.mul Rat.add Rat.sub Rat.inv in
/-- C4 counterexample: the gray pixel of imgC4 is perceptually close to the
target on the per-pixel rule the claim states (the scalar
colors_are_similar: low-saturation pixels are compared on lightness alone,
and its lightness equals the target's), yet the classifier marks it an
obstacle - the vectorized code only compares on lightness alone when the
TARGET's saturation or the image's MEAN saturation is low, never per
pixel. -/
theorem low_saturation_pixel_not_compared_on_lightness :
    (image_to_bool_mask imgC4 targetC4 always_background_colors (1/10) (1/10)
      (1/10)).getD 0 true = true ∧
    colors_are_similar (125, 125, 125) (150, 100, 100) (1/10) (1/10) (1/10) =
      true := by
  refine ⟨by decide, by decide⟩

/-- C4 amended: a pixel is background (false) iff it matches the active
reference color or one of the always-background reference colors under the
vectorized similarity check, in which the lightness-only comparison is
applied to ALL pixels exactly when the reference color's saturation or the
image's mean saturation is low (a per-reference, per-image decision rather
than per-pixel). -/
theorem image_to_bool_mask_background_iff (img : List (Nat × Nat × Nat))
    (target : Nat × Nat × Nat) (alwaysBg : List (Nat × Nat × Nat))
    (hT lT sT : ℚ) (i : ℕ) (hi : i < img.length) :
    ((image_to_bool_mask img target alwaysBg hT lT sT).getD i true = false ↔
      ((check_color_similarity_vectorized (img.map bgrToRgbQ) target hT lT
          sT).getD i false = true ∨
        ∃ c ∈ alwaysBg, (check_color_similarity_vectorized (img.map bgrToRgbQ)
          c hT lT sT).getD i false = true)) := by
  unfold image_to_bool_mask
  have hi' : i < (img.map bgrToRgbQ).length := by
    rw [List.length_map]; omega
  have hm1len : (applyBg (List.replicate img.length true)
      (check_color_similarity_vectorized (img.map bgrToRgbQ) target hT lT
        sT)).length = (img.map bgrToRgbQ).length := by
    unfold applyBg
    rw [List.length_zipWith, List.length_replicate,
        check_color_similarity_vectorized_length, List.length_map]
    exact min_self _
  rw [foldl_applyBg_getD (img.map bgrToRgbQ) hT lT sT i hi' alwaysBg _ hm1len]
  rw [applyBg_getD _ _ i (by rw [List.length_replicate]; omega)
    (by rw [check_color_similarity_vectorized_length]; exact hi')]
  have hrep : (List.replicate img.length true).getD i true = true := by
    rw [List.getD_eq_getElem _ _ (by rw [List.length_replicate]; omega)]
    exact List.getElem_replicate true (by rw [List.length_replicate]; omega)
  rw [hrep]
  simp

unseal Rat.mul Rat.add Rat.sub Rat.inv in
/-- Witness for image_to_bool_mask_background_iff: the pixel of imgC4 that
equals the target color is classified as background. -/
theorem image_to_bool_mask_background_iff_witness :
    (image_to_bool_mask imgC4 targetC4 always_background_colors (1/10) (1/10)
      (1/10)).getD 2 true = false :=
  (image_to_bool_mask_background_iff imgC4 targetC4 always_background_colors
    (1/10) (1/10) (1/10) 2 (by decide)).mpr (Or.inl (by decide))
